import Mathlib

/-!
Shallow embedding of the vendor/student CRUD service found in the
repository, which contains two near-duplicate Express variants:
`src/Server.js` and `src/unnamed/part_000`.  Route handlers are modelled
as pure functions over an explicit store (a list of records standing for
the MongoDB collection).  Every operation returns the pair of an
`Except ErrKind α` outcome and the resulting store; when the handler
returns an error before reaching `save()`, the store is returned
unchanged, exactly as in the source.

External collaborators are abstracted the way the source uses them:
`bcrypt.hash(p, 10)` becomes a tagged value remembering the cost and the
input (the interesting distinction is hashed versus plaintext storage),
and JavaScript `Date` values become plain calendar dates with the
`setMonth` normalization rule spelled out.
-/

/-- Error taxonomy of the handlers, distinguished by the HTTP status and
message each variant sends: `validationError` is the 400 "All fields are
required" path, `conflict` the 400 duplicate-email path, `notFound` the
404 path on student routes, and so on. -/
inductive ErrKind
  | validationError
  | conflict
  | unauthenticated
  | forbidden
  | unauthorized
  | notFound
  | internalError
deriving DecidableEq, Repr

/-- A password value as persisted in the vendor collection: either the
raw request string (no hashing performed before the save) or the result
of `bcrypt.hash(input, cost)`, modelled as an opaque tag remembering the
cost factor and the input. -/
inductive StoredPassword
  | plain (p : String)
  | hashed (cost : Nat) (p : String)
deriving DecidableEq, Repr

/-- Model of `bcrypt.hash(p, cost)`: a salted one-way hash, kept abstract
as a tagged value. -/
def bcryptHash (p : String) (cost : Nat) : StoredPassword :=
  .hashed cost p

/-- A persisted vendor document.  `Server.js` can save documents with
absent fields (its schema marks nothing required), so every attribute is
optional; `name` stands for `vendorname` in the `Server.js` schema and
`name` in the `part_000` schema. -/
structure Vendor where
  id : Nat
  name : Option String
  restaurant : Option String
  email : Option String
  password : Option StoredPassword
deriving DecidableEq, Repr

/-- The JSON body of a `POST /register` request; a `none` field was
absent from the body. -/
structure RegisterReq where
  name : Option String
  restaurant : Option String
  email : Option String
  password : Option String
deriving DecidableEq, Repr

/-- Model of `Vendor.findOne({ email })`.  Mongoose strips keys whose
value is `undefined` from a query filter, so when the request carried no
email the call behaves as `findOne({})` and matches the first document
of the collection. -/
def vendorFindByEmail (store : List Vendor) (email : Option String) : Option Vendor :=
  match email with
  | none => store.head?
  | some e => store.find? (fun v => v.email = some e)

/-- `POST /register` of `src/Server.js` (lines 75-91): looks up the
email, answers 400 "Email already registered" on a hit, and otherwise
saves `{ vendorname, restaurant, email, password }` exactly as received:
no field validation and no `bcrypt.hash` call, so the password is
persisted verbatim. -/
def serverJsRegister (fresh : Nat) (r : RegisterReq) (store : List Vendor) :
    Except ErrKind Unit × List Vendor :=
  match vendorFindByEmail store r.email with
  | some _ => (.error .conflict, store)
  | none =>
      (.ok (), store ++ [{ id := fresh, name := r.name, restaurant := r.restaurant,
                           email := r.email, password := r.password.map .plain }])

/-- `POST /register` of `src/unnamed/part_000` (lines 75-97): rejects the
request with 400 "All fields are required" when `name`, `email` or
`password` is absent or empty (JS truthiness), answers 400 "Vendor
already exists" when the email is taken, and otherwise saves the vendor
with `password: await bcrypt.hash(password, 10)`. -/
def part000Register (fresh : Nat) (r : RegisterReq) (store : List Vendor) :
    Except ErrKind Unit × List Vendor :=
  match r.name, r.email, r.password with
  | some n, some e, some p =>
      if n = "" || e = "" || p = "" then (.error .validationError, store)
      else
        match store.find? (fun v => v.email = some e) with
        | some _ => (.error .conflict, store)
        | none =>
            (.ok (), store ++ [{ id := fresh, name := some n, restaurant := none,
                                 email := some e, password := some (bcryptHash p 10) }])
  | _, _, _ => (.error .validationError, store)

/-- A calendar date, standing for a JavaScript `Date` at the granularity
the handlers use (UTC day precision); `month` ranges over 1..12. -/
structure CalDate where
  year : Nat
  month : Nat
  day : Nat
deriving DecidableEq, Repr

/-- Leap-year rule of the Gregorian calendar, as implemented by
JavaScript `Date`. -/
def isLeap (y : Nat) : Bool :=
  (y % 4 == 0 && y % 100 != 0) || y % 400 == 0

/-- Number of days in month `m` (1..12) of year `y`. -/
def daysInMonth (y m : Nat) : Nat :=
  if m == 2 then (if isLeap y then 29 else 28)
  else if m == 4 || m == 6 || m == 9 || m == 11 then 30
  else 31

/-- Model of `const d2 = new Date(d); d2.setMonth(d2.getMonth() + 1)`:
the month index is incremented (wrapping the year) and the day-of-month
kept; `Date` then normalizes, so a day past the target month's length
overflows into the following month instead of clamping.  A calendar day
is at most 31 and every month has at least 28 days, so a single
overflow step suffices. -/
def addOneMonthJS (d : CalDate) : CalDate :=
  let y := if d.month == 12 then d.year + 1 else d.year
  let m := if d.month == 12 then 1 else d.month + 1
  if d.day ≤ daysInMonth y m then ⟨y, m, d.day⟩
  else
    let rest := d.day - daysInMonth y m
    if m == 12 then ⟨y + 1, 1, rest⟩ else ⟨y, m + 1, rest⟩

/-- A persisted student document.  `nextPaymentDate` is optional because
the `part_000` add handler saves the document without it.  `vendorId`
holds the owning vendor's id, taken from the verified token
(`req.user.id`). -/
structure Student where
  id : Nat
  name : String
  phone : String
  meals : String
  totalAmount : Int
  paidAmount : Int
  pendingAmount : Int
  startDate : CalDate
  endDate : CalDate
  nextPaymentDate : Option CalDate
  vendorId : Nat
deriving DecidableEq, Repr

/-- The JSON body of an add-student request.  A `none` string or date
field was absent or empty (JS `!field` truthiness rejects both); a
`none` amount was absent or `null` (the code tests `== null`, which lets
`0` through). -/
structure StudentReq where
  name : Option String
  phone : Option String
  meals : Option String
  startDate : Option CalDate
  endDate : Option CalDate
  totalAmount : Option Int
  paidAmount : Option Int
deriving DecidableEq, Repr

/-- `POST /studentsadd` of `src/Server.js` (lines 179-231): rejects with
400 when any required field is missing, computes
`pendingAmount = totalAmount - paidAmount`, sets `nextPaymentDate` to
`endDate` advanced by one month via `setMonth`, tags the record with the
authenticated vendor's id and saves it. -/
def serverJsAddStudent (vid fresh : Nat) (r : StudentReq) (store : List Student) :
    Except ErrKind Student × List Student :=
  match r.name, r.phone, r.meals, r.startDate, r.endDate, r.totalAmount, r.paidAmount with
  | some n, some ph, some ml, some sd, some ed, some ta, some pa =>
      if n = "" || ph = "" || ml = "" then (.error .validationError, store)
      else
        let st : Student :=
          { id := fresh, name := n, phone := ph, meals := ml,
            totalAmount := ta, paidAmount := pa, pendingAmount := ta - pa,
            startDate := sd, endDate := ed,
            nextPaymentDate := some (addOneMonthJS ed), vendorId := vid }
        (.ok st, store ++ [st])
  | _, _, _, _, _, _, _ => (.error .validationError, store)

/-- `POST /students` of `src/unnamed/part_000` (lines 153-180): same
validation and `pendingAmount` computation as the `Server.js` variant,
but the document is saved without any `nextPaymentDate`: the handler
never computes one. -/
def part000AddStudent (vid fresh : Nat) (r : StudentReq) (store : List Student) :
    Except ErrKind Student × List Student :=
  match r.name, r.phone, r.meals, r.startDate, r.endDate, r.totalAmount, r.paidAmount with
  | some n, some ph, some ml, some sd, some ed, some ta, some pa =>
      if n = "" || ph = "" || ml = "" then (.error .validationError, store)
      else
        let st : Student :=
          { id := fresh, name := n, phone := ph, meals := ml,
            totalAmount := ta, paidAmount := pa, pendingAmount := ta - pa,
            startDate := sd, endDate := ed,
            nextPaymentDate := none, vendorId := vid }
        (.ok st, store ++ [st])
  | _, _, _, _, _, _, _ => (.error .validationError, store)

/-- `GET /students` of both variants: `Student.find({ vendorId:
req.user.id })`, the records of the calling vendor only. -/
def listStudents (vid : Nat) (store : List Student) : List Student :=
  store.filter (fun s => s.vendorId == vid)

/-- The JSON body of a `PUT /students/:id` request; `none` marks a field
absent from the body.  `pendingAmount` is read only by the `Server.js`
variant (it is in that handler's allow-list); `part_000` never reads it. -/
structure UpdateReq where
  name : Option String
  phone : Option String
  meals : Option String
  startDate : Option CalDate
  endDate : Option CalDate
  totalAmount : Option Int
  paidAmount : Option Int
  pendingAmount : Option Int
deriving DecidableEq, Repr

/-- Field application of `PUT /students/:id` in `src/Server.js` (lines
276-297): each field of the allow-list `name, phone, meals, startDate,
endDate, totalAmount, paidAmount, pendingAmount` is copied from the body
when present (`!== undefined`), dates being parsed; `pendingAmount` is
never recomputed.  When the body carried an `endDate`, `nextPaymentDate`
is recomputed from it by the one-month `setMonth` advance. -/
def serverJsApplyUpdate (s0 : Student) (u : UpdateReq) : Student :=
  let s1 := match u.name with | some v => { s0 with name := v } | none => s0
  let s2 := match u.phone with | some v => { s1 with phone := v } | none => s1
  let s3 := match u.meals with | some v => { s2 with meals := v } | none => s2
  let s4 := match u.startDate with | some v => { s3 with startDate := v } | none => s3
  let s5 := match u.endDate with | some v => { s4 with endDate := v } | none => s4
  let s6 := match u.totalAmount with | some v => { s5 with totalAmount := v } | none => s5
  let s7 := match u.paidAmount with | some v => { s6 with paidAmount := v } | none => s6
  let s8 := match u.pendingAmount with | some v => { s7 with pendingAmount := v } | none => s7
  match u.endDate with
  | some ed => { s8 with nextPaymentDate := some (addOneMonthJS ed) }
  | none => s8

/-- Field application of `PUT /students/:id` in `src/unnamed/part_000`
(lines 202-219): truthy strings and parsed dates are copied, amounts are
copied when `!= null`; `pendingAmount` is recomputed as
`totalAmount - paidAmount` only when BOTH amounts came in the request
body (the stored values are never consulted); finally, since the stored
`endDate` is always set, `nextPaymentDate` is recomputed from the
post-update `endDate` on every update. -/
def part000ApplyUpdate (s0 : Student) (u : UpdateReq) : Student :=
  let s1 := match u.name with | some v => { s0 with name := if v = "" then s0.name else v } | none => s0
  let s2 := match u.phone with | some v => { s1 with phone := if v = "" then s1.phone else v } | none => s1
  let s3 := match u.meals with | some v => { s2 with meals := if v = "" then s2.meals else v } | none => s2
  let s4 := match u.totalAmount with | some v => { s3 with totalAmount := v } | none => s3
  let s5 := match u.paidAmount with | some v => { s4 with paidAmount := v } | none => s4
  let s6 := match u.startDate with | some v => { s5 with startDate := v } | none => s5
  let s7 := match u.endDate with | some v => { s6 with endDate := v } | none => s6
  let s8 := match u.totalAmount, u.paidAmount with
    | some t, some p => { s7 with pendingAmount := t - p }
    | _, _ => s7
  { s8 with nextPaymentDate := some (addOneMonthJS s8.endDate) }

/-- `Student.findOne({ _id: id, vendorId: req.user.id })`: the student
with that id owned by that vendor, if any. -/
def studentFindOwned (vid id : Nat) (store : List Student) : Option Student :=
  store.find? (fun s => s.id == id && s.vendorId == vid)

/-- `PUT /students/:id` of `src/Server.js` (lines 266-305): a miss of
the ownership-scoped lookup answers 404 "Student not found" and writes
nothing; on a hit the allow-listed fields are applied and the document
saved. -/
def serverJsUpdateStudent (vid id : Nat) (u : UpdateReq) (store : List Student) :
    Except ErrKind Student × List Student :=
  match studentFindOwned vid id store with
  | none => (.error .notFound, store)
  | some s =>
      let s2 := serverJsApplyUpdate s u
      (.ok s2, store.map (fun t => if t.id == id && t.vendorId == vid then s2 else t))

/-- `PUT /students/:id` of `src/unnamed/part_000` (lines 194-227): same
ownership-scoped lookup and 404 behaviour, with that variant's field
application. -/
def part000UpdateStudent (vid id : Nat) (u : UpdateReq) (store : List Student) :
    Except ErrKind Student × List Student :=
  match studentFindOwned vid id store with
  | none => (.error .notFound, store)
  | some s =>
      let s2 := part000ApplyUpdate s u
      (.ok s2, store.map (fun t => if t.id == id && t.vendorId == vid then s2 else t))

/-- `DELETE /students/:id` of both variants:
`Student.findOneAndDelete({ _id: id, vendorId: req.user.id })` answers
404 "Student not found" on a miss (store untouched) and removes the
matching document on a hit. -/
def deleteStudent (vid id : Nat) (store : List Student) :
    Except ErrKind Unit × List Student :=
  match studentFindOwned vid id store with
  | none => (.error .notFound, store)
  | some _ => (.ok (), store.eraseP (fun s => s.id == id && s.vendorId == vid))

/-! ## Claims -/

/-- C1: the claim says every validated fresh-email Register call persists
the password only as a salted cost-10 hash.  The `part_000` variant does
(`bcrypt.hash(password, 10)`), but the `Server.js` variant saves the
request password verbatim with no hash call, so the persisted value is
the plaintext, not a hash; its own `/login` then bcrypt-compares against
that stored value, so a vendor registered through `Server.js` can never
log in. -/
theorem register_password_storage_divergence :
    serverJsRegister 1 ⟨some "A", none, some "a@x.com", some "pw"⟩ [] =
      (.ok (), [{ id := 1, name := some "A", restaurant := none,
                  email := some "a@x.com", password := some (.plain "pw") }])
    ∧ part000Register 1 ⟨some "A", none, some "a@x.com", some "pw"⟩ [] =
      (.ok (), [{ id := 1, name := some "A", restaurant := none,
                  email := some "a@x.com", password := some (bcryptHash "pw" 10) }])
    ∧ StoredPassword.plain "pw" ≠ bcryptHash "pw" 10 := by
  refine ⟨rfl, rfl, by decide⟩

/-- C2 counterexample: the claim says Register with an absent required
field fails with ValidationError (400) and persists nothing, but the
`Server.js` register handler performs no field validation: with `name`
absent and a fresh email it answers success and persists the vendor. -/
theorem serverJs_register_missing_name_persists :
    serverJsRegister 1 ⟨none, none, some "a@x.com", some "pw"⟩ [] =
      (.ok (), [{ id := 1, name := none, restaurant := none,
                  email := some "a@x.com", password := some (.plain "pw") }])
    ∧ (Except.ok () : Except ErrKind Unit) ≠ .error .validationError
    ∧ ([{ id := 1, name := none, restaurant := none, email := some "a@x.com",
          password := some (.plain "pw") }] : List Vendor) ≠ [] := by
  refine ⟨rfl, by simp, by simp⟩

/-- C2 (amended): in the `part_000` variant, a Register call with
`name`, `email` or `password` absent fails with ValidationError and
leaves the store unchanged; the `Server.js` variant performs no such
validation and persists the record anyway. -/
theorem part000_register_missing_field_rejected (fresh : Nat)
    (rst nm em pw : Option String) (store : List Vendor) :
    part000Register fresh ⟨none, rst, em, pw⟩ store = (.error .validationError, store)
    ∧ part000Register fresh ⟨nm, rst, none, pw⟩ store = (.error .validationError, store)
    ∧ part000Register fresh ⟨nm, rst, em, none⟩ store = (.error .validationError, store) := by
  refine ⟨rfl, ?_, ?_⟩
  · cases nm <;> rfl
  · cases nm <;> cases em <;> rfl

/-- C3 counterexample: the claim says Register with a used email fails
with Conflict regardless of the other fields, present or absent; in the
`part_000` variant the required-fields check runs before the duplicate
lookup, so a request with an absent `name` and a used email fails with
ValidationError, not Conflict. -/
theorem part000_register_duplicate_email_missing_name_validation :
    part000Register 2 ⟨none, none, some "a@x.com", some "pw2"⟩
        [⟨1, some "A", none, some "a@x.com", some (bcryptHash "pw" 10)⟩] =
      (.error .validationError,
        [⟨1, some "A", none, some "a@x.com", some (bcryptHash "pw" 10)⟩])
    ∧ ErrKind.validationError ≠ ErrKind.conflict := by
  refine ⟨rfl, by decide⟩

/-- C3 (amended): Register with an already-used email fails with
Conflict and leaves the store unchanged whenever the other required
fields are present (and nonempty); the `Server.js` variant does so
regardless of the other fields, while in `part_000` an absent required
field yields ValidationError instead (validation precedes the duplicate
check). -/
theorem register_duplicate_email_conflict (fresh : Nat) (rst : Option String)
    (n e p : String) (store : List Vendor)
    (hn : ¬ n = "") (he : ¬ e = "") (hp : ¬ p = "")
    (hdup : (store.find? (fun v => v.email = some e)).isSome = true) :
    part000Register fresh ⟨some n, rst, some e, some p⟩ store = (.error .conflict, store)
    ∧ serverJsRegister fresh ⟨some n, rst, some e, some p⟩ store = (.error .conflict, store) := by
  obtain ⟨v, hv⟩ := Option.isSome_iff_exists.mp hdup
  constructor
  · simp [part000Register, hn, he, hp, hv]
  · simp [serverJsRegister, vendorFindByEmail, hv]

/-- C3 witness: a concrete duplicate-email registration with all fields
present fails with Conflict in both variants. -/
theorem register_duplicate_email_conflict_witness :
    part000Register 2 ⟨some "B", none, some "a@x.com", some "pw2"⟩
        [⟨1, some "A", none, some "a@x.com", some (bcryptHash "pw" 10)⟩] =
      (.error .conflict, [⟨1, some "A", none, some "a@x.com", some (bcryptHash "pw" 10)⟩])
    ∧ serverJsRegister 2 ⟨some "B", none, some "a@x.com", some "pw2"⟩
        [⟨1, some "A", none, some "a@x.com", some (bcryptHash "pw" 10)⟩] =
      (.error .conflict, [⟨1, some "A", none, some "a@x.com", some (bcryptHash "pw" 10)⟩]) :=
  register_duplicate_email_conflict 2 none "B" "a@x.com" "pw2"
    [⟨1, some "A", none, some "a@x.com", some (bcryptHash "pw" 10)⟩]
    (by decide) (by decide) (by decide) (by decide)

/-- C4: in both variants, a validated AddStudent call persists
`pendingAmount = totalAmount - paidAmount` exactly, with no floor at
zero (overpayment gives the negative difference). -/
theorem addStudent_pendingAmount_no_floor (vid fresh : Nat) (n ph ml : String)
    (sd ed : CalDate) (ta pa : Int) (store : List Student)
    (hn : ¬ n = "") (hph : ¬ ph = "") (hml : ¬ ml = "") :
    (serverJsAddStudent vid fresh
        ⟨some n, some ph, some ml, some sd, some ed, some ta, some pa⟩ store).1.toOption.map
        Student.pendingAmount = some (ta - pa)
    ∧ (part000AddStudent vid fresh
        ⟨some n, some ph, some ml, some sd, some ed, some ta, some pa⟩ store).1.toOption.map
        Student.pendingAmount = some (ta - pa) := by
  constructor
  · simp [serverJsAddStudent, hn, hph, hml, Except.toOption]
  · simp [part000AddStudent, hn, hph, hml, Except.toOption]

/-- C4 witness: AddStudent(total=1000, paid=300) persists pendingAmount
700 exactly, and AddStudent(total=100, paid=300) persists the negative
difference -200. -/
theorem addStudent_pendingAmount_no_floor_witness :
    (serverJsAddStudent 1 1
        ⟨some "S", some "9", some "2", some ⟨2024, 1, 1⟩, some ⟨2024, 6, 1⟩,
          some 1000, some 300⟩ []).1.toOption.map Student.pendingAmount = some 700
    ∧ (part000AddStudent 1 1
        ⟨some "S", some "9", some "2", some ⟨2024, 1, 1⟩, some ⟨2024, 6, 1⟩,
          some 100, some 300⟩ []).1.toOption.map Student.pendingAmount = some (-200) := by
  constructor
  · have h := addStudent_pendingAmount_no_floor 1 1 "S" "9" "2" ⟨2024, 1, 1⟩ ⟨2024, 6, 1⟩
      1000 300 [] (by decide) (by decide) (by decide)
    rw [h.1]; decide
  · have h := addStudent_pendingAmount_no_floor 1 1 "S" "9" "2" ⟨2024, 1, 1⟩ ⟨2024, 6, 1⟩
      100 300 [] (by decide) (by decide) (by decide)
    rw [h.2]; decide

/-- C5 counterexample: the claim says every validated AddStudent call
sets `nextPaymentDate` to the supplied endDate plus one month; the
`part_000` add handler saves the document with no `nextPaymentDate` at
all. -/
theorem part000_addStudent_missing_nextPaymentDate :
    (part000AddStudent 1 1
        ⟨some "S", some "9", some "2", some ⟨2024, 1, 1⟩, some ⟨2024, 1, 31⟩,
          some 1000, some 300⟩ []).1.toOption.map Student.nextPaymentDate = some none
    ∧ (part000AddStudent 1 1
        ⟨some "S", some "9", some "2", some ⟨2024, 1, 1⟩, some ⟨2024, 1, 31⟩,
          some 1000, some 300⟩ []).1.toOption.map Student.nextPaymentDate ≠
        some (some (addOneMonthJS ⟨2024, 1, 31⟩)) := by
  refine ⟨rfl, by decide⟩

/-- C5 (amended): the `Server.js` variant sets `nextPaymentDate` to the
supplied endDate advanced by one month under the JS `setMonth` rule; the
`part_000` variant's AddStudent leaves `nextPaymentDate` unset. -/
theorem addStudent_nextPaymentDate_rule (vid fresh : Nat) (n ph ml : String)
    (sd ed : CalDate) (ta pa : Int) (store : List Student)
    (hn : ¬ n = "") (hph : ¬ ph = "") (hml : ¬ ml = "") :
    (serverJsAddStudent vid fresh
        ⟨some n, some ph, some ml, some sd, some ed, some ta, some pa⟩ store).1.toOption.map
        Student.nextPaymentDate = some (some (addOneMonthJS ed))
    ∧ (part000AddStudent vid fresh
        ⟨some n, some ph, some ml, some sd, some ed, some ta, some pa⟩ store).1.toOption.map
        Student.nextPaymentDate = some none := by
  constructor
  · simp [serverJsAddStudent, hn, hph, hml, Except.toOption]
  · simp [part000AddStudent, hn, hph, hml, Except.toOption]

/-- C5 witness: a concrete validated add in the `Server.js` variant
persists nextPaymentDate 2024-06-15 for endDate 2024-05-15, while the
same call in the `part_000` variant persists no nextPaymentDate. -/
theorem addStudent_nextPaymentDate_rule_witness :
    (serverJsAddStudent 1 1
        ⟨some "S", some "9", some "2", some ⟨2024, 1, 1⟩, some ⟨2024, 5, 15⟩,
          some 1000, some 300⟩ []).1.toOption.map Student.nextPaymentDate =
      some (some ⟨2024, 6, 15⟩)
    ∧ (part000AddStudent 1 1
        ⟨some "S", some "9", some "2", some ⟨2024, 1, 1⟩, some ⟨2024, 5, 15⟩,
          some 1000, some 300⟩ []).1.toOption.map Student.nextPaymentDate = some none := by
  have h := addStudent_nextPaymentDate_rule 1 1 "S" "9" "2" ⟨2024, 1, 1⟩ ⟨2024, 5, 15⟩
    1000 300 [] (by decide) (by decide) (by decide)
  refine ⟨?_, h.2⟩
  rw [h.1]; decide

/-- C6 counterexample: the claim says AddStudent with endDate 2024-01-31
yields nextPaymentDate 2024-02-29 (clamping to the end of February); the
code's `setMonth` advance does not clamp. -/
theorem addStudent_jan31_not_clamped_to_feb29 :
    (serverJsAddStudent 1 1
        ⟨some "S", some "9", some "2", some ⟨2024, 1, 1⟩, some ⟨2024, 1, 31⟩,
          some 1000, some 300⟩ []).1.toOption.map Student.nextPaymentDate ≠
      some (some ⟨2024, 2, 29⟩) := by
  decide

/-- C6 (amended): AddStudent (`Server.js` variant) with endDate
2024-01-31 persists nextPaymentDate 2024-03-02: `setMonth` keeps the
day-of-month and `Date` normalization overflows the surplus days past
February 29 into March instead of clamping. -/
theorem addStudent_jan31_overflows_to_march2 :
    (serverJsAddStudent 1 1
        ⟨some "S", some "9", some "2", some ⟨2024, 1, 1⟩, some ⟨2024, 1, 31⟩,
          some 1000, some 300⟩ []).1.toOption.map Student.nextPaymentDate =
      some (some ⟨2024, 3, 2⟩)
    ∧ addOneMonthJS ⟨2024, 1, 31⟩ = ⟨2024, 3, 2⟩ := by
  refine ⟨by decide, by decide⟩

/-- The pendingAmount persisted by the `part_000` update handler: it is
recomputed as `totalAmount - paidAmount` exactly when both amounts came
in the request body, and otherwise left at the stored value. -/
theorem part000ApplyUpdate_pendingAmount (s : Student) (u : UpdateReq) :
    (part000ApplyUpdate s u).pendingAmount =
      match u.totalAmount, u.paidAmount with
      | some t, some p => t - p
      | _, _ => s.pendingAmount := by
  obtain ⟨un, uph, uml, usd, ued, uta, upa, upd⟩ := u
  cases un <;> cases uph <;> cases uml <;> cases usd <;> cases ued <;>
    cases uta <;> cases upa <;> rfl

/-- The pendingAmount persisted by the `Server.js` update handler: the
request value when one was supplied, the stored value otherwise; it is
never recomputed from the amounts. -/
theorem serverJsApplyUpdate_pendingAmount (s : Student) (u : UpdateReq) :
    (serverJsApplyUpdate s u).pendingAmount = u.pendingAmount.getD s.pendingAmount := by
  obtain ⟨un, uph, uml, usd, ued, uta, upa, upd⟩ := u
  cases un <;> cases uph <;> cases uml <;> cases usd <;> cases ued <;>
    cases uta <;> cases upa <;> cases upd <;> rfl

/-- C7 counterexample: the claim says an update supplying only
`paidAmount`, on a student whose `totalAmount` is stored, persists
`pendingAmount = stored total - new paid` (here 1000 - 300 = 700); in
both variants the handler leaves `pendingAmount` at its stored 1000,
because neither recomputes from the stored `totalAmount`. -/
theorem update_paid_only_pending_not_recomputed :
    (part000UpdateStudent 1 1 ⟨none, none, none, none, none, none, some 300, none⟩
        [{ id := 1, name := "S", phone := "9", meals := "2", totalAmount := 1000,
           paidAmount := 0, pendingAmount := 1000, startDate := ⟨2024, 1, 1⟩,
           endDate := ⟨2024, 6, 1⟩, nextPaymentDate := some ⟨2024, 7, 1⟩,
           vendorId := 1 }]).1.toOption.map Student.pendingAmount = some 1000
    ∧ (serverJsUpdateStudent 1 1 ⟨none, none, none, none, none, none, some 300, none⟩
        [{ id := 1, name := "S", phone := "9", meals := "2", totalAmount := 1000,
           paidAmount := 0, pendingAmount := 1000, startDate := ⟨2024, 1, 1⟩,
           endDate := ⟨2024, 6, 1⟩, nextPaymentDate := some ⟨2024, 7, 1⟩,
           vendorId := 1 }]).1.toOption.map Student.pendingAmount = some 1000
    ∧ (1000 : Int) ≠ 700 := by
  refine ⟨by decide, by decide, by decide⟩

/-- C7 (amended): `pendingAmount` is recomputed by the `part_000` update
handler exactly when both `totalAmount` and `paidAmount` are supplied in
the request (stored values are never consulted), and left unchanged when
`totalAmount` is absent; the `Server.js` handler never recomputes it,
storing a directly-supplied `pendingAmount` as-is and otherwise leaving
the stored value. -/
theorem update_pendingAmount_recompute_rule (s : Student) (u : UpdateReq) :
    (∀ t p : Int, u.totalAmount = some t → u.paidAmount = some p →
        (part000ApplyUpdate s u).pendingAmount = t - p)
    ∧ (u.totalAmount = none →
        (part000ApplyUpdate s u).pendingAmount = s.pendingAmount)
    ∧ (∀ q : Int, u.pendingAmount = some q →
        (serverJsApplyUpdate s u).pendingAmount = q)
    ∧ (u.pendingAmount = none →
        (serverJsApplyUpdate s u).pendingAmount = s.pendingAmount) := by
  refine ⟨?_, ?_, ?_, ?_⟩
  · intro t p ht hp
    rw [part000ApplyUpdate_pendingAmount, ht, hp]
  · intro ht
    rw [part000ApplyUpdate_pendingAmount, ht]
  · intro q hq
    rw [serverJsApplyUpdate_pendingAmount, hq]
    rfl
  · intro hq
    rw [serverJsApplyUpdate_pendingAmount, hq]
    rfl

/-- C7 witness: an update carrying both amounts (total 1000, paid 300)
persists pendingAmount 700 under the `part_000` handler. -/
theorem update_pendingAmount_recompute_rule_witness :
    (part000ApplyUpdate
        { id := 1, name := "S", phone := "9", meals := "2", totalAmount := 500,
          paidAmount := 0, pendingAmount := 500, startDate := ⟨2024, 1, 1⟩,
          endDate := ⟨2024, 6, 1⟩, nextPaymentDate := some ⟨2024, 7, 1⟩, vendorId := 1 }
        ⟨none, none, none, none, none, some 1000, some 300, none⟩).pendingAmount = 700 := by
  have h := update_pendingAmount_recompute_rule
    { id := 1, name := "S", phone := "9", meals := "2", totalAmount := 500,
      paidAmount := 0, pendingAmount := 500, startDate := ⟨2024, 1, 1⟩,
      endDate := ⟨2024, 6, 1⟩, nextPaymentDate := some ⟨2024, 7, 1⟩, vendorId := 1 }
    ⟨none, none, none, none, none, some 1000, some 300, none⟩
  rw [h.1 1000 300 rfl rfl]; decide

/-- C8: an authenticated UpdateStudent or DeleteStudent call whose id
has no match under the caller's ownership (nonexistent id, already
deleted id, or a record owned by a different vendor) answers NotFound in
both variants and leaves the store unchanged. -/
theorem student_missing_or_unowned_notFound (vid id : Nat) (u : UpdateReq)
    (store : List Student) (h : studentFindOwned vid id store = none) :
    serverJsUpdateStudent vid id u store = (.error .notFound, store)
    ∧ part000UpdateStudent vid id u store = (.error .notFound, store)
    ∧ deleteStudent vid id store = (.error .notFound, store) := by
  unfold serverJsUpdateStudent part000UpdateStudent deleteStudent
  rw [h]
  exact ⟨rfl, rfl, rfl⟩

/-- C8 witness: with the store holding a single student owned by vendor
2, vendor 1's update and delete on that id both answer NotFound and the
store is untouched; the same instance covers an already-deleted id from
vendor 1's perspective. -/
theorem student_missing_or_unowned_notFound_witness :
    serverJsUpdateStudent 1 1 ⟨none, none, none, none, none, none, some 300, none⟩
        [{ id := 1, name := "S", phone := "9", meals := "2", totalAmount := 1000,
           paidAmount := 0, pendingAmount := 1000, startDate := ⟨2024, 1, 1⟩,
           endDate := ⟨2024, 6, 1⟩, nextPaymentDate := some ⟨2024, 7, 1⟩,
           vendorId := 2 }] =
      (.error .notFound,
        [{ id := 1, name := "S", phone := "9", meals := "2", totalAmount := 1000,
           paidAmount := 0, pendingAmount := 1000, startDate := ⟨2024, 1, 1⟩,
           endDate := ⟨2024, 6, 1⟩, nextPaymentDate := some ⟨2024, 7, 1⟩,
           vendorId := 2 }])
    ∧ part000UpdateStudent 1 1 ⟨none, none, none, none, none, none, some 300, none⟩
        [{ id := 1, name := "S", phone := "9", meals := "2", totalAmount := 1000,
           paidAmount := 0, pendingAmount := 1000, startDate := ⟨2024, 1, 1⟩,
           endDate := ⟨2024, 6, 1⟩, nextPaymentDate := some ⟨2024, 7, 1⟩,
           vendorId := 2 }] =
      (.error .notFound,
        [{ id := 1, name := "S", phone := "9", meals := "2", totalAmount := 1000,
           paidAmount := 0, pendingAmount := 1000, startDate := ⟨2024, 1, 1⟩,
           endDate := ⟨2024, 6, 1⟩, nextPaymentDate := some ⟨2024, 7, 1⟩,
           vendorId := 2 }])
    ∧ deleteStudent 1 1
        [{ id := 1, name := "S", phone := "9", meals := "2", totalAmount := 1000,
           paidAmount := 0, pendingAmount := 1000, startDate := ⟨2024, 1, 1⟩,
           endDate := ⟨2024, 6, 1⟩, nextPaymentDate := some ⟨2024, 7, 1⟩,
           vendorId := 2 }] =
      (.error .notFound,
        [{ id := 1, name := "S", phone := "9", meals := "2", totalAmount := 1000,
           paidAmount := 0, pendingAmount := 1000, startDate := ⟨2024, 1, 1⟩,
           endDate := ⟨2024, 6, 1⟩, nextPaymentDate := some ⟨2024, 7, 1⟩,
           vendorId := 2 }]) :=
  student_missing_or_unowned_notFound 1 1 ⟨none, none, none, none, none, none, some 300, none⟩
    [{ id := 1, name := "S", phone := "9", meals := "2", totalAmount := 1000,
       paidAmount := 0, pendingAmount := 1000, startDate := ⟨2024, 1, 1⟩,
       endDate := ⟨2024, 6, 1⟩, nextPaymentDate := some ⟨2024, 7, 1⟩,
       vendorId := 2 }] (by decide)

/-- C9: the record list returned by ListStudents contains a student
record exactly when it is in the store and its owning vendor reference
equals the calling vendor's id: every owned record is included and no
record of a different vendor ever is. -/
theorem listStudents_exactly_owned (vid : Nat) (store : List Student) (s : Student) :
    s ∈ listStudents vid store ↔ s ∈ store ∧ s.vendorId = vid := by
  simp [listStudents, List.mem_filter]

/-- C10: neither variant's update-field application ever touches
`vendorId`: it is outside the `Server.js` allow-list and has no
assignment in `part_000`, so the ownership assigned at AddStudent time
is immutable under UpdateStudent. -/
theorem updateStudent_vendorId_immutable (s : Student) (u : UpdateReq) :
    (serverJsApplyUpdate s u).vendorId = s.vendorId
    ∧ (part000ApplyUpdate s u).vendorId = s.vendorId := by
  obtain ⟨un, uph, uml, usd, ued, uta, upa, upd⟩ := u
  constructor
  · cases un <;> cases uph <;> cases uml <;> cases usd <;> cases ued <;>
      cases uta <;> cases upa <;> cases upd <;> rfl
  · cases un <;> cases uph <;> cases uml <;> cases usd <;> cases ued <;>
      cases uta <;> cases upa <;> rfl
